import Mathlib

/-!
Verification of the credential-resolution core of
Mercurial-Credential-Manager-for-Windows.

The embedding below models `HTTPPasswordHandler` from
`src/Mercurial/mekk/mercurial_keyring/mercurial_keyring.py` (the primary
variant), together with the `_after_bad_auth` method of the near-duplicate
variant in
`src/Mercurial/extensions/mercurial_credential_manager/mercurial_credential_manager.py`.

Modelling conventions:
* Python object state (`self.pwd_cache`, `self.last_reply`) and the external
  keyring store are threaded explicitly through a `World` record; every
  method returns its result together with the updated world and the list of
  interactive-prompt effects it performed.
* External collaborators (the urllib password cache, the `[auth]`
  configuration lookup `readauthforuri`, the interactive prompt responses,
  and the outcome of a keyring write) are read-only fields of an `Env`
  record.
* Request URIs are embedded after parsing: `mercurial.util.url` is an
  external library, so a `Url` record holds the parsed fields and `urlStr`
  re-serializes it (the shape produced by `util.url.__str__`).
* Python exceptions (`util.Abort`, `ValueError` from tuple unpacking,
  re-raised keyring errors, the `NameError` of the credential-manager
  variant) become an `Err` sum propagated through `Except`.
* Python truthiness of optional strings (`None` and `""` are falsy) is
  `pyTruthy`.
-/

namespace MercurialKeyring

/-- Python truthiness of an optional string: `None` and the empty string
are falsy, every other string is truthy. -/
def pyTruthy : Option String → Bool
  | none => false
  | some s => decide (s ≠ "")

/-- Python `a or b` on optional strings: `a` if truthy, else `b`. -/
def pyOr (a b : Option String) : Option String :=
  if pyTruthy a then a else b

/-- A parsed request URI, mirroring the fields of `mercurial.util.url`
that `unpack_url`, `get_url_config` and `password_url` touch. -/
structure Url where
  scheme : String
  hostpath : String
  user : Option String
  passwd : Option String
  query : String
  fragment : Option String
  deriving DecidableEq, Repr

/-- Serialization of a parsed URL, the shape produced by
`str(parsed_url)` on a `mercurial.util.url` object:
`scheme://[user[:passwd]@]hostpath[?query][#fragment]`. -/
def urlStr (u : Url) : String :=
  let creds := match u.user with
    | none => ""
    | some us =>
        us ++ (match u.passwd with | none => "" | some pw => ":" ++ pw) ++ "@"
  let q := if u.query = "" then "" else "?" ++ u.query
  let f := match u.fragment with | none => "" | some fr => "#" ++ fr
  u.scheme ++ "://" ++ creds ++ u.hostpath ++ q ++ f

/-- `HTTPPasswordHandler.unpack_url`: strip query, fragment and the
embedded credentials from the parsed url, returning the stripped url
together with the extracted username and password. -/
def unpack_url (u : Url) : Url × Option String × Option String :=
  ({ u with query := "", fragment := none, user := none, passwd := none },
   u.user, u.passwd)

/-- Errors (Python exceptions) that the handler can raise:
`util.Abort` for the ambiguous-username and non-interactive cases, the
`ValueError` of `base_url.split('://', 1)` unpacking, a re-raised
non-`PasswordSetError` exception from the keyring write, and the
`NameError` of the credential-manager variant's `_after_bad_auth`. -/
inductive Err where
  | ambiguousUsername
  | nonInteractive
  | valueError
  | keyringSetError
  | nameError
  deriving DecidableEq, Repr

/-- Password source markers (the `SRC_*` constants). -/
inductive Src where
  | url
  | urlcache
  | cfgauth
  | memcache
  | keyring
  deriving DecidableEq, Repr

/-- Interactive-prompt effects performed by a call (`ui.prompt` and
`ui.getpass`). -/
inductive Effect where
  | promptUser
  | promptPass
  deriving DecidableEq, Repr

/-- The `[auth]` configuration token returned by `readauthforuri`:
optional `username`, `password` and `prefix` fields (`pfx` stands for the
configured url prefix). -/
structure AuthToken where
  username : Option String
  password : Option String
  pfx : Option String
  deriving DecidableEq, Repr

/-- Outcome of a physical keyring write (`set_http_password`): success,
a `keyring.errors.PasswordSetError`, or any other exception. -/
inductive SetOutcome where
  | ok
  | passwordSetError
  | otherError
  deriving DecidableEq, Repr

/-- The fingerprint dict saved by `_note_last_reply`:
`dict(realm=realm, authuri=authuri, user=user, req=req)`. -/
structure LastReply where
  realm : String
  authuri : Url
  user : Option String
  req : Option Nat
  deriving DecidableEq, Repr

/-- Mutable state of one `HTTPPasswordHandler` object: the short-term
password cache (`PwdCache._cache`, keyed by `(realm, url, user)`) and the
remembered `last_reply` fingerprint. -/
structure HandlerState where
  pwd_cache : List ((String × String × Option String) × String)
  last_reply : Option LastReply
  deriving DecidableEq, Repr

/-- The world a call acts on: the handler object's state plus the
external persistent keyring store (keyed by `(url, username)` as in
`PasswordStore._format_http_key`). -/
structure World where
  handler : HandlerState
  keyring : List ((String × String) × String)
  deriving DecidableEq, Repr

/-- Read-only external collaborators of a resolution call. -/
structure Env where
  /-- the urllib password manager's `find_user_password` -/
  urllib : String → Url → Option String × Option String
  /-- `mercurial.httpconnection.readauthforuri` over the loaded config -/
  config : String → Option String → Option AuthToken
  /-- whether the physical keyring write succeeds or raises -/
  set_result : String → String → String → SetOutcome
  /-- `ui.interactive()` -/
  interactive : Bool
  /-- the response to `ui.prompt("user:")` (may be `None`) -/
  prompt_user : String → String → Option String
  /-- the response to `ui.getpass("password: ")` -/
  prompt_pass : String → String → String
  /-- the GUI helper program found by `get_guiprompt` (credential-manager
  variant only) -/
  gui_prompt : Option String

/-- `PwdCache.check`: look up `(realm, url, user)` in the cache dict. -/
def cacheCheck (c : List ((String × String × Option String) × String))
    (realm url : String) (user : Option String) : Option String :=
  (c.find? (fun e => decide (e.1 = (realm, url, user)))).map (fun e => e.2)

/-- `PwdCache.store`: save `(realm, url, user) -> pwd`, overwriting any
previous binding (new binding shadows older ones). -/
def cacheStore (c : List ((String × String × Option String) × String))
    (realm url : String) (user : Option String) (pwd : String) :
    List ((String × String × Option String) × String) :=
  ((realm, url, user), pwd) :: c

/-- `PasswordStore.get_http_password`: look up `(url, username)` in the
keyring store. -/
def keyringGet (k : List ((String × String) × String))
    (url user : String) : Option String :=
  (k.find? (fun e => decide (e.1 = (url, user)))).map (fun e => e.2)

/-- Split a character list at the first occurrence of `"://"`, returning
the parts before and after it (the recursion behind Python's
`s.split('://', 1)`). -/
def splitSepAux : List Char → Option (List Char × List Char)
  | [] => none
  | c :: cs =>
      if c = ':' ∧ cs.take 2 = ['/', '/'] then some ([], cs.drop 2)
      else match splitSepAux cs with
        | none => none
        | some (a, b) => some (c :: a, b)

/-- Python `s.split('://', 1)` when the separator occurs: `some` of the
two parts, `none` when the separator is absent. -/
def splitSep (s : String) : Option (String × String) :=
  (splitSepAux s.data).map (fun p => (String.mk p.1, String.mk p.2))

/-- `HTTPPasswordHandler.password_url`: the url identifying the password,
taking the configured prefix into account.  `none` and the wildcard give
`base_url` unchanged; otherwise the result is `base_url`'s scheme joined
to the prefix's host/path part (a prefix without its own separator is
used directly).  The `ValueError` of unpacking `base_url.split('://', 1)`
when `base_url` has no separator becomes `Err.valueError`. -/
def password_url (base_url : String) (pfx : Option String) :
    Except Err String :=
  if ¬ pyTruthy pfx ∨ pfx = some "*" then .ok base_url
  else
    match splitSep base_url with
    | none => .error .valueError
    | some (scheme, _) =>
        let pstr := pfx.getD ""
        let prefix_host_path := match splitSep pstr with
          | some (_, hp) => hp
          | none => pstr
        .ok (scheme ++ "://" ++ prefix_host_path)

/-- `HTTPPasswordHandler.get_url_config`: consult `readauthforuri` for
the base url (retrying once with the username embedded when the first
lookup fails and a username is known), extract `username`, `password`
and `prefix` from the auth token (defaulting to the passed user when no
token is found), and compute the password url. -/
def get_url_config (env : Env) (parsed_url : Url) (user : Option String) :
    Except Err (Option String × Option String × String) :=
  let base_url := urlStr parsed_url
  let res := env.config base_url user
  let res := if res = none ∧ pyTruthy user then
      env.config (urlStr { parsed_url with user := user }) user
    else res
  let fields := match res with
    | some tok => (tok.username, tok.password, tok.pfx)
    | none => (user, none, none)
  match password_url base_url fields.2.2 with
  | .error e => .error e
  | .ok pw_url => .ok (fields.1, fields.2.1, pw_url)

/-- `HTTPPasswordHandler.get_credentials`: look up credentials in the
embedded url, the urllib cache, the `[auth]` configuration, the
short-term memory cache and the keyring, in that order, returning
`(user, password, source, actual_url)` together with the (unchanged)
world and the (empty) list of prompt effects. -/
def get_credentials (env : Env) (w : World) (realm : String)
    (authuri : Url) (skip_caches : Bool) :
    Except Err (Option String × Option String × Option Src × String)
      × World × List Effect :=
  let up := unpack_url authuri
  let parsed_url := up.1
  let url_user := up.2.1
  let url_passwd := up.2.2
  let base_url := urlStr parsed_url
  if pyTruthy url_user ∧ pyTruthy url_passwd then
    (.ok (url_user, url_passwd, some Src.url, base_url), w, [])
  else
    let ul := env.urllib realm authuri
    if pyTruthy ul.1 ∧ pyTruthy ul.2 then
      (.ok (ul.1, ul.2, some Src.urlcache, base_url), w, [])
    else
      let actual_user := pyOr url_user ul.1
      match get_url_config env parsed_url actual_user with
      | .error e => (.error e, w, [])
      | .ok (auth_user, auth_pwd, keyring_url) =>
        if pyTruthy auth_user ∧ pyTruthy actual_user ∧
            actual_user ≠ auth_user then
          (.error .ambiguousUsername, w, [])
        else if pyTruthy auth_user ∧ pyTruthy auth_pwd then
          (.ok (auth_user, auth_pwd, some Src.cfgauth, keyring_url), w, [])
        else
          let actual_user := pyOr actual_user auth_user
          if skip_caches then
            (.ok (actual_user, none, none, keyring_url), w, [])
          else
            let cached_pwd :=
              cacheCheck w.handler.pwd_cache realm keyring_url actual_user
            if pyTruthy cached_pwd then
              (.ok (actual_user, cached_pwd, some Src.memcache, keyring_url),
               w, [])
            else
              if pyTruthy actual_user then
                let keyring_pwd :=
                  keyringGet w.keyring keyring_url (actual_user.getD "")
                if pyTruthy keyring_pwd then
                  (.ok (actual_user, keyring_pwd, some Src.keyring,
                        keyring_url), w, [])
                else
                  (.ok (actual_user, none, none, keyring_url), w, [])
              else
                (.ok (actual_user, none, none, keyring_url), w, [])

/-- `HTTPPasswordHandler.prompt_interactively`: abort when the ui is not
interactive; otherwise prompt for the username only when it is not
already fixed, then prompt for the password. -/
def prompt_interactively (env : Env) (user : Option String)
    (realm url : String) :
    Except Err (Option String × String) × List Effect :=
  if ¬ env.interactive then (.error .nonInteractive, [])
  else
    let pu := if pyTruthy user then (user, ([] : List Effect))
      else (env.prompt_user realm url, [Effect.promptUser])
    (.ok (pu.1, env.prompt_pass realm url), pu.2 ++ [Effect.promptPass])

/-- `HTTPPasswordHandler._note_last_reply`: overwrite `last_reply` with
the fingerprint of the current call. -/
def noteLastReply (st : HandlerState) (realm : String) (authuri : Url)
    (user : Option String) (req : Option Nat) : HandlerState :=
  { st with last_reply := some ⟨realm, authuri, user, req⟩ }

/-- `HTTPPasswordHandler._after_bad_auth` (keyring variant): true exactly
when a `last_reply` is remembered and its `(realm, authuri, req)` triple
equals the incoming one. -/
def after_bad_auth (st : HandlerState) (realm : String) (authuri : Url)
    (req : Option Nat) : Bool :=
  match st.last_reply with
  | none => false
  | some lr =>
      decide (lr.realm = realm ∧ lr.authuri = authuri ∧ lr.req = req)

/-- `HTTPPasswordHandler.find_auth` (keyring variant): detect a repeated
request, look up credentials with `get_credentials` (skipping the caches
after a repeat), cache and record a found password, otherwise prompt
interactively, save the entered password to the keyring when the
username is fixed (a `PasswordSetError` is only warned about, any other
exception is re-raised), cache the entered password and record the
fingerprint. -/
def find_auth (env : Env) (w : World) (realm : String) (authuri : Url)
    (req : Option Nat) :
    Except Err (Option String × String) × World × List Effect :=
  let after := after_bad_auth w.handler realm authuri req
  match get_credentials env w realm authuri after with
  | (.error e, w1, eff1) => (.error e, w1, eff1)
  | (.ok (user, pwdOpt, src, final_url), w1, eff1) =>
    if pyTruthy pwdOpt then
      let pwd := pwdOpt.getD ""
      let w2 := if src ≠ some Src.memcache then
          { w1 with handler := { w1.handler with pwd_cache := (cacheStore w1.handler.pwd_cache realm final_url user pwd) } }
        else w1
      let w3 := { w2 with handler := (noteLastReply w2.handler realm authuri user req) }
      (.ok (user, pwd), w3, eff1)
    else
      match prompt_interactively env user realm final_url with
      | (.error e, eff2) => (.error e, w1, eff1 ++ eff2)
      | (.ok (user2, pwd2), eff2) =>
        let finish := fun (wk : World) =>
          let w4 := { wk with handler := { wk.handler with pwd_cache := (cacheStore wk.handler.pwd_cache realm final_url user2 pwd2) } }
          let w5 := { w4 with handler := (noteLastReply w4.handler realm authuri user2 req) }
          ((.ok (user2, pwd2) : Except Err (Option String × String)),
           w5, eff1 ++ eff2)
        if pyTruthy user2 then
          match env.set_result final_url (user2.getD "") pwd2 with
          | SetOutcome.otherError => (.error .keyringSetError, w1, eff1 ++ eff2)
          | SetOutcome.passwordSetError => finish w1
          | SetOutcome.ok =>
              finish { w1 with keyring := (((final_url, user2.getD ""), pwd2) :: w1.keyring) }
        else
          finish w1

/-- `HTTPPasswordHandler._after_bad_auth` of the credential-manager
variant: on a repeated request it additionally runs the GUI helper's
ERASE command when a helper program is found; building that command
reads the undefined variable `user` (a `NameError`) whenever the request
url carries an embedded username (`url_user is not None`). -/
def mcm_after_bad_auth (env : Env) (st : HandlerState) (realm : String)
    (authuri : Url) (req : Option Nat) : Except Err Bool :=
  match st.last_reply with
  | none => .ok false
  | some lr =>
    if lr.realm = realm ∧ lr.authuri = authuri ∧ lr.req = req then
      let up := unpack_url authuri
      if pyTruthy env.gui_prompt then
        match up.2.1 with
        | none => .ok true
        | some _ => .error .nameError
      else .ok true
    else .ok false

/-- Iterating the state effect of the read-only `get_credentials` query
(`describe`) an arbitrary number of times. -/
def describeIter (env : Env) (realm : String) (authuri : Url) :
    Nat → World → World
  | 0, w => w
  | n + 1, w =>
      describeIter env realm authuri n (get_credentials env w realm authuri false).2.1

def env0 : Env :=
  { urllib := fun _ _ => (none, none)
    config := fun _ _ => none
    set_result := fun _ _ _ => SetOutcome.ok
    interactive := false
    prompt_user := fun _ _ => none
    prompt_pass := fun _ _ => ""
    gui_prompt := none }

def envInt : Env :=
  { env0 with interactive := true
              prompt_user := fun _ _ => some "u"
              prompt_pass := fun _ _ => "" }

def envBad : Env :=
  { envInt with set_result := fun _ _ _ => SetOutcome.otherError }

def url0 : Url :=
  { scheme := "https", hostpath := "host/x", user := none, passwd := none,
    query := "", fragment := none }

def urlC : Url :=
  { scheme := "https", hostpath := "host/x", user := some "alice",
    passwd := some "pw", query := "", fragment := none }

def wEmpty : World :=
  { handler := { pwd_cache := [], last_reply := none }, keyring := [] }

def lrW : LastReply :=
  { realm := "realm", authuri := url0, user := none, req := none }

def wLr : World :=
  { handler := { pwd_cache := [], last_reply := some lrW }, keyring := [] }

def wFull : World :=
  { handler := { pwd_cache := [(("realm", "https://host/x", some "bob"), "cached")],
                 last_reply := some lrW },
    keyring := [(("https://host/x", "bob"), "stored")] }

def lr0 : LastReply :=
  { realm := "other", authuri := url0, user := none, req := none }

def w0 : World :=
  { handler := { pwd_cache := [], last_reply := some lr0 }, keyring := [] }

def tokB : AuthToken := { username := some "bob", password := none, pfx := none }

def envCfg : Env := { env0 with config := fun _ _ => some tokB }

def urlA : Url :=
  { scheme := "https", hostpath := "host/x", user := some "alice",
    passwd := none, query := "", fragment := none }

def lrC : LastReply :=
  { realm := "r", authuri := urlC, user := none, req := none }

def stC : HandlerState := { pwd_cache := [], last_reply := some lrC }

def envG : Env := { env0 with gui_prompt := some "gui" }

theorem splitSepAux_append (a b : List Char) :
    (splitSepAux (a ++ ':' :: '/' :: '/' :: b)).isSome := by
  induction a with
  | nil =>
    simp [splitSepAux]
  | cons c cs ih =>
    simp only [List.cons_append, splitSepAux]
    split
    · simp
    · rcases h : splitSepAux (cs ++ ':' :: '/' :: '/' :: b) with _ | p
      · rw [h] at ih
        simp at ih
      · simp [h]

theorem splitSep_urlStr (u : Url) : (splitSep (urlStr u)).isSome := by
  have ht : (urlStr u).data = u.scheme.data ++ ':' :: '/' :: '/' ::
      (((match u.user with
        | none => ""
        | some us =>
            us ++ (match u.passwd with | none => "" | some pw => ":" ++ pw) ++ "@") ++
       u.hostpath ++ (if u.query = "" then "" else "?" ++ u.query) ++
       (match u.fragment with | none => "" | some fr => "#" ++ fr)).data) := by
    simp only [urlStr]
    simp only [String.data_append, List.append_assoc]
    rfl
  rw [splitSep, ht]
  have hs := splitSepAux_append u.scheme.data
    (((match u.user with
        | none => ""
        | some us =>
            us ++ (match u.passwd with | none => "" | some pw => ":" ++ pw) ++ "@") ++
       u.hostpath ++ (if u.query = "" then "" else "?" ++ u.query) ++
       (match u.fragment with | none => "" | some fr => "#" ++ fr)).data)
  rcases h : splitSepAux (u.scheme.data ++ ':' :: '/' :: '/' ::
      (((match u.user with
        | none => ""
        | some us =>
            us ++ (match u.passwd with | none => "" | some pw => ":" ++ pw) ++ "@") ++
       u.hostpath ++ (if u.query = "" then "" else "?" ++ u.query) ++
       (match u.fragment with | none => "" | some fr => "#" ++ fr)).data)) with _ | p
  · rw [h] at hs; simp at hs
  · simp [h]

theorem password_url_urlStr (u : Url) (pfx : Option String) :
    ∃ r, password_url (urlStr u) pfx = .ok r := by
  unfold password_url
  split
  · exact ⟨_, rfl⟩
  · have hs := splitSep_urlStr u
    rcases h : splitSep (urlStr u) with _ | p
    · rw [h] at hs; simp at hs
    · simp only [h]
      exact ⟨_, rfl⟩

theorem get_credentials_pure (env : Env) (w : World) (realm : String)
    (uri : Url) (skip : Bool) :
    ∃ r, get_credentials env w realm uri skip = (r, w, []) := by
  unfold get_credentials
  dsimp only
  repeat' split
  all_goals exact ⟨_, rfl⟩

theorem get_credentials_skip_fst (env : Env) (w w' : World) (realm : String)
    (uri : Url) :
    (get_credentials env w realm uri true).1
      = (get_credentials env w' realm uri true).1 := by
  unfold get_credentials
  dsimp only
  repeat' split
  all_goals simp_all

theorem get_credentials_skip_src (env : Env) (w : World) (realm : String)
    (uri : Url) (u p : Option String) (s : Option Src) (fu : String)
    (h : (get_credentials env w realm uri true).1 = .ok (u, p, s, fu)) :
    s ≠ some Src.memcache ∧ s ≠ some Src.keyring := by
  unfold get_credentials at h
  dsimp only at h
  repeat' split at h
  all_goals first
    | exact Except.noConfusion h
    | (simp_all
       done)
    | (dsimp only at h
       simp only [Prod.mk.injEq, Except.ok.injEq] at h
       obtain ⟨-, -, hs, -⟩ := h
       subst hs
       exact ⟨by decide, by decide⟩)

theorem find_auth_fst_skip (env : Env) (w w' : World) (realm : String)
    (uri : Url) (req : Option Nat)
    (h : after_bad_auth w.handler realm uri req = true)
    (h' : after_bad_auth w'.handler realm uri req = true) :
    (find_auth env w realm uri req).1 = (find_auth env w' realm uri req).1 := by
  have hgc := get_credentials_skip_fst env w w' realm uri
  obtain ⟨r, hr⟩ := get_credentials_pure env w realm uri true
  obtain ⟨r2, hr2⟩ := get_credentials_pure env w' realm uri true
  rw [hr, hr2] at hgc
  dsimp only at hgc
  subst hgc
  unfold find_auth
  dsimp only
  rw [h, h', hr, hr2]
  rcases r with e | ⟨u, p, s, fu⟩
  · rfl
  · dsimp only
    split
    · rfl
    · rcases hp : prompt_interactively env u realm fu with ⟨pe, eff2⟩
      rcases pe with e2 | ⟨u2, p2⟩
      · rfl
      · dsimp only
        split
        · rcases hs : env.set_result fu (u2.getD "") p2 <;> rfl
        · rfl

/-- C1: when the remembered last-reply fingerprint equals the incoming
(realm, authuri, req) triple, the repeat detector fires, so find_auth runs
its lookup with skip_caches true: the credential source is never the
short-term cache or the keyring, and the returned credential is the same
whatever the cache and keyring hold. -/
theorem c1_repeat_detection_bypasses_caches (env : Env) (w w' : World)
    (realm : String) (authuri : Url) (req : Option Nat) (lr : LastReply)
    (h1 : w.handler.last_reply = some lr)
    (h2 : w'.handler.last_reply = some lr)
    (hr : lr.realm = realm) (hu : lr.authuri = authuri) (hq : lr.req = req) :
    after_bad_auth w.handler realm authuri req = true ∧
    (∀ u p s fu,
      (get_credentials env w realm authuri true).1 = .ok (u, p, s, fu) →
      s ≠ some Src.memcache ∧ s ≠ some Src.keyring) ∧
    (find_auth env w realm authuri req).1
      = (find_auth env w' realm authuri req).1 := by
  have hab : after_bad_auth w.handler realm authuri req = true := by
    unfold after_bad_auth
    rw [h1]
    simp [hr, hu, hq]
  have hab2 : after_bad_auth w'.handler realm authuri req = true := by
    unfold after_bad_auth
    rw [h2]
    simp [hr, hu, hq]
  exact ⟨hab,
    fun u p s fu hh => get_credentials_skip_src env w realm authuri u p s fu hh,
    find_auth_fst_skip env w w' realm authuri req hab hab2⟩

/-- Witness for C1 at a concrete repeated request: the detector fires and
the returned credential is the same for an empty world and for a world
whose cache and keyring both hold entries. -/
theorem c1_witness :
    after_bad_auth wLr.handler "realm" url0 none = true ∧
    ((none : Option Src) ≠ some Src.memcache ∧
      (none : Option Src) ≠ some Src.keyring) ∧
    (find_auth env0 wLr "realm" url0 none).1
      = (find_auth env0 wFull "realm" url0 none).1 := by
  have h := c1_repeat_detection_bypasses_caches env0 wLr wFull "realm" url0
    none lrW rfl rfl rfl rfl rfl
  exact ⟨h.1, h.2.1 none none none "https://host/x" (by rfl), h.2.2⟩

/-- C9: the read-only lookup get_credentials never mutates the world (the
short-term cache, the keyring store and the remembered fingerprint are
returned unchanged) and never performs a prompt effect; iterating it any
number of times leaves the world as it was. -/
theorem c9_describe_is_read_only (env : Env) (w : World) (realm : String)
    (authuri : Url) (skip : Bool) (n : Nat) :
    (get_credentials env w realm authuri skip).2.1 = w ∧
    (get_credentials env w realm authuri skip).2.2 = [] ∧
    describeIter env realm authuri n w = w := by
  obtain ⟨r, hr⟩ := get_credentials_pure env w realm authuri skip
  refine ⟨by rw [hr], by rw [hr], ?_⟩
  induction n with
  | zero => rfl
  | succ m ih =>
    obtain ⟨r2, hr2⟩ := get_credentials_pure env w realm authuri false
    show describeIter env realm authuri m
      (get_credentials env w realm authuri false).2.1 = w
    rw [hr2]
    exact ih

/-- Counterexample to C3 as stated: a lookup that aborts (non-interactive
environment, no credential anywhere) leaves the previously remembered
fingerprint, whose realm differs from the aborted call, in place. -/
theorem c3_counterexample :
    (find_auth env0 w0 "realm" url0 none).1 = .error Err.nonInteractive ∧
    (find_auth env0 w0 "realm" url0 none).2.1.handler.last_reply = some lr0 ∧
    ¬ lr0.realm = "realm" := by
  exact ⟨rfl, rfl, by decide⟩

/-- C3 (amended): after every find_auth call that returns a credential,
the handler remembers exactly the fingerprint of that call, overwriting
any previous one; a call that aborts leaves the previous fingerprint in
place. -/
theorem c3_fingerprint_recorded_on_return (env : Env) (w : World)
    (realm : String) (authuri : Url) (req : Option Nat) (u : Option String)
    (p : String)
    (h : (find_auth env w realm authuri req).1 = .ok (u, p)) :
    (find_auth env w realm authuri req).2.1.handler.last_reply
      = some { realm := realm, authuri := authuri, user := u, req := req } := by
  obtain ⟨r, hr⟩ := get_credentials_pure env w realm authuri
    (after_bad_auth w.handler realm authuri req)
  unfold find_auth at h ⊢
  dsimp only at h ⊢
  rw [hr] at h ⊢
  rcases r with e | ⟨u1, p1, s1, fu1⟩
  · exact absurd h (fun hh => Except.noConfusion hh)
  · dsimp only at h ⊢
    by_cases hp : pyTruthy p1 = true
    · rw [if_pos hp] at h ⊢
      dsimp only at h ⊢
      simp only [Except.ok.injEq, Prod.mk.injEq] at h
      obtain ⟨hu, -⟩ := h
      subst hu
      split
      · rfl
      · rfl
    · rw [if_neg hp] at h ⊢
      rcases hpr : prompt_interactively env u1 realm fu1 with ⟨pe, eff2⟩
      rw [hpr] at h
      rcases pe with e2 | ⟨u2, p2⟩
      · exact absurd h (fun hh => Except.noConfusion hh)
      · dsimp only at h ⊢
        by_cases hu2 : pyTruthy u2 = true
        · rw [if_pos hu2] at h ⊢
          rcases hsr : env.set_result fu1 (u2.getD "") p2 with _ | _ | _ <;>
            rw [hsr] at h
          · dsimp only at h ⊢
            simp only [Except.ok.injEq, Prod.mk.injEq] at h
            obtain ⟨hu, -⟩ := h
            subst hu
            rfl
          · dsimp only at h ⊢
            simp only [Except.ok.injEq, Prod.mk.injEq] at h
            obtain ⟨hu, -⟩ := h
            subst hu
            rfl
          · exact absurd h (fun hh => Except.noConfusion hh)
        · rw [if_neg hu2] at h ⊢
          dsimp only at h ⊢
          simp only [Except.ok.injEq, Prod.mk.injEq] at h
          obtain ⟨hu, -⟩ := h
          subst hu
          rfl

/-- Witness for the amended C3 at a concrete successful call. -/
theorem c3_witness :
    (find_auth env0 wEmpty "realm" urlC none).1 = .ok (some "alice", "pw") ∧
    (find_auth env0 wEmpty "realm" urlC none).2.1.handler.last_reply
      = some { realm := "realm", authuri := urlC, user := some "alice",
               req := none } := by
  exact ⟨rfl,
    c3_fingerprint_recorded_on_return env0 wEmpty "realm" urlC none
      (some "alice") "pw" rfl⟩

/-- Counterexample to C2 as stated: resolving a url with embedded
credentials writes that credential into the short-term cache, which the
claim said is left unchanged. -/
theorem c2_counterexample :
    wEmpty.handler.pwd_cache = [] ∧
    (find_auth env0 wEmpty "realm" urlC none).2.1.handler.pwd_cache
      = [(("realm", "https://host/x", some "alice"), "pw")] := by
  exact ⟨rfl, rfl⟩

/-- C2 (amended): when the credential found by the lookup comes from the
request url or from the static [auth] configuration, find_auth leaves the
keyring store unchanged, but it does write the credential into the
short-term cache. -/
theorem c2_embedded_and_config_skip_store (env : Env) (w : World)
    (realm : String) (authuri : Url) (req : Option Nat) (u p0 : Option String)
    (s : Src) (fu : String)
    (hg : (get_credentials env w realm authuri
        (after_bad_auth w.handler realm authuri req)).1 = .ok (u, p0, some s, fu))
    (hs : s = Src.url ∨ s = Src.cfgauth)
    (hp : pyTruthy p0 = true) :
    (find_auth env w realm authuri req).2.1.keyring = w.keyring ∧
    (find_auth env w realm authuri req).2.1.handler.pwd_cache
      = cacheStore w.handler.pwd_cache realm fu u (p0.getD "") := by
  obtain ⟨r, hr⟩ := get_credentials_pure env w realm authuri
    (after_bad_auth w.handler realm authuri req)
  rw [hr] at hg
  dsimp only at hg
  subst hg
  unfold find_auth
  dsimp only
  rw [hr]
  dsimp only
  rw [if_pos hp]
  have hms : some s ≠ some Src.memcache := by
    rcases hs with h1 | h1 <;> subst h1 <;> decide
  rw [if_pos hms]
  exact ⟨rfl, rfl⟩

/-- Witness for the amended C2 at the embedded-credentials input. -/
theorem c2_witness :
    (find_auth env0 wEmpty "realm" urlC none).2.1.keyring = wEmpty.keyring ∧
    (find_auth env0 wEmpty "realm" urlC none).2.1.handler.pwd_cache
      = cacheStore wEmpty.handler.pwd_cache "realm" "https://host/x"
          (some "alice") "pw" := by
  exact c2_embedded_and_config_skip_store env0 wEmpty "realm" urlC none
    (some "alice") (some "pw") Src.url "https://host/x" rfl (Or.inl rfl)
    (by decide)

theorem find_auth_prompt_spec (env : Env) (w : World) (realm : String)
    (authuri : Url) (req : Option Nat) (u p0 : Option String) (s : Option Src)
    (fu : String) (u2 : Option String)
    (hg : (get_credentials env w realm authuri
        (after_bad_auth w.handler realm authuri req)).1 = .ok (u, p0, s, fu))
    (hp : pyTruthy p0 = false)
    (hint : env.interactive = true)
    (hu2 : u2 = if pyTruthy u then u else env.prompt_user realm fu) :
    ((pyTruthy u2 = true →
        env.set_result fu (u2.getD "") (env.prompt_pass realm fu)
          ≠ SetOutcome.otherError) →
      (find_auth env w realm authuri req).1
        = .ok (u2, env.prompt_pass realm fu)) ∧
    (pyTruthy u2 = true →
      env.set_result fu (u2.getD "") (env.prompt_pass realm fu)
        = SetOutcome.ok →
      (find_auth env w realm authuri req).2.1.keyring
        = ((fu, u2.getD ""), env.prompt_pass realm fu) :: w.keyring) ∧
    (pyTruthy u2 = true →
      env.set_result fu (u2.getD "") (env.prompt_pass realm fu)
        = SetOutcome.passwordSetError →
      (find_auth env w realm authuri req).2.1.keyring = w.keyring) := by
  obtain ⟨r, hr⟩ := get_credentials_pure env w realm authuri
    (after_bad_auth w.handler realm authuri req)
  rw [hr] at hg
  dsimp only at hg
  subst hg
  have hpi : prompt_interactively env u realm fu
      = (.ok (u2, env.prompt_pass realm fu),
         (if pyTruthy u = true then ([] : List Effect)
          else [Effect.promptUser]) ++ [Effect.promptPass]) := by
    unfold prompt_interactively
    rw [if_neg (by simp [hint])]
    subst hu2
    by_cases hpu : pyTruthy u = true
    · simp [hpu]
    · simp [hpu]
  unfold find_auth
  dsimp only
  rw [hr]
  dsimp only
  rw [if_neg (by simp [hp])]
  rw [hpi]
  dsimp only
  by_cases hq : pyTruthy u2 = true
  · rw [if_pos hq]
    rcases hsr : env.set_result fu (u2.getD "") (env.prompt_pass realm fu)
      with _ | _ | _
    · exact ⟨fun _ => rfl, fun _ _ => rfl, fun _ hh => SetOutcome.noConfusion hh⟩
    · exact ⟨fun _ => rfl, fun _ hh => SetOutcome.noConfusion hh, fun _ _ => rfl⟩
    · exact ⟨fun hcond => absurd rfl (hcond hq),
        fun _ hh => SetOutcome.noConfusion hh,
        fun _ hh => SetOutcome.noConfusion hh⟩
  · rw [if_neg hq]
    exact ⟨fun _ => rfl, fun hh => absurd hh hq, fun hh => absurd hh hq⟩

/-- C4 (amended): when the lookup finds no password and the environment
is interactive, find_auth returns the pair obtained from the prompt even
when the entered password is empty; it does not abort on an empty
password (it aborts only when non-interactive, or when the keyring write
raises an unexpected exception). -/
theorem c4_empty_prompt_password_returned (env : Env) (w : World)
    (realm : String) (authuri : Url) (req : Option Nat) (u p0 : Option String)
    (s : Option Src) (fu : String) (u2 : Option String)
    (hg : (get_credentials env w realm authuri
        (after_bad_auth w.handler realm authuri req)).1 = .ok (u, p0, s, fu))
    (hp : pyTruthy p0 = false)
    (hint : env.interactive = true)
    (hu2 : u2 = if pyTruthy u then u else env.prompt_user realm fu)
    (hset : pyTruthy u2 = true →
      env.set_result fu (u2.getD "") (env.prompt_pass realm fu)
        ≠ SetOutcome.otherError) :
    (find_auth env w realm authuri req).1
      = .ok (u2, env.prompt_pass realm fu) :=
  (find_auth_prompt_spec env w realm authuri req u p0 s fu u2
    hg hp hint hu2).1 hset

/-- Counterexample to C4 as stated: with an interactive prompt answering
username u and an empty password, find_auth returns the pair instead of
aborting. -/
theorem c4_counterexample :
    (find_auth envInt wEmpty "realm" url0 none).1 = .ok (some "u", "") := by
  rfl

/-- Witness for the amended C4 at the empty-password prompt input. -/
theorem c4_witness :
    (find_auth envInt wEmpty "realm" url0 none).1 = .ok (some "u", "") ∧
    envInt.prompt_pass "realm" "https://host/x" = "" := by
  refine ⟨?_, rfl⟩
  exact c4_empty_prompt_password_returned envInt wEmpty "realm" url0 none
    none none none "https://host/x" (some "u") rfl rfl rfl rfl
    (fun _ => by decide)

/-- Counterexample to C8 as stated: a keyring write failing with an
exception other than PasswordSetError aborts the call instead of being
logged as a warning. -/
theorem c8_counterexample :
    (find_auth envBad wEmpty "realm" url0 none).1
      = .error Err.keyringSetError := by
  rfl

/-- C8 (amended): a credential entered at the prompt with a truthy
username is written through to the keyring; a PasswordSetError from that
write is non-fatal (the call still returns the in-memory pair and the
store is unchanged), while any other exception from the write propagates
and aborts the call. -/
theorem c8_prompt_writethrough_and_seterror (env : Env) (w : World)
    (realm : String) (authuri : Url) (req : Option Nat) (u p0 : Option String)
    (s : Option Src) (fu : String) (u2 : Option String)
    (hg : (get_credentials env w realm authuri
        (after_bad_auth w.handler realm authuri req)).1 = .ok (u, p0, s, fu))
    (hp : pyTruthy p0 = false)
    (hint : env.interactive = true)
    (hu2 : u2 = if pyTruthy u then u else env.prompt_user realm fu)
    (htr : pyTruthy u2 = true) :
    (env.set_result fu (u2.getD "") (env.prompt_pass realm fu)
        = SetOutcome.ok →
      (find_auth env w realm authuri req).1
        = .ok (u2, env.prompt_pass realm fu) ∧
      (find_auth env w realm authuri req).2.1.keyring
        = ((fu, u2.getD ""), env.prompt_pass realm fu) :: w.keyring) ∧
    (env.set_result fu (u2.getD "") (env.prompt_pass realm fu)
        = SetOutcome.passwordSetError →
      (find_auth env w realm authuri req).1
        = .ok (u2, env.prompt_pass realm fu) ∧
      (find_auth env w realm authuri req).2.1.keyring = w.keyring) := by
  have hsp := find_auth_prompt_spec env w realm authuri req u p0 s fu u2
    hg hp hint hu2
  refine ⟨fun hok => ⟨hsp.1 (fun _ => by simp [hok]), hsp.2.1 htr hok⟩,
    fun hpse => ⟨hsp.1 (fun _ => by simp [hpse]), hsp.2.2 htr hpse⟩⟩

/-- Witness for the amended C8: a successful write-through stores the
prompted credential in the keyring. -/
theorem c8_witness :
    (find_auth envInt wEmpty "realm" url0 none).2.1.keyring
      = (("https://host/x", "u"), "") :: wEmpty.keyring := by
  exact ((c8_prompt_writethrough_and_seterror envInt wEmpty "realm" url0 none
    none none none "https://host/x" (some "u") rfl rfl rfl rfl rfl).1 rfl).2

theorem get_url_config_username (env : Env) (parsed : Url)
    (user : Option String) (tok : AuthToken)
    (hcfg : env.config (urlStr parsed) user = some tok) :
    ∃ ku, get_url_config env parsed user = .ok (tok.username, tok.password, ku) := by
  unfold get_url_config
  dsimp only
  rw [hcfg]
  rw [if_neg (by simp)]
  obtain ⟨r, hpw⟩ := password_url_urlStr parsed tok.pfx
  rw [hpw]
  exact ⟨r, rfl⟩

/-- C5: a username embedded in the request url and a different truthy
username found in the [auth] configuration make the lookup abort with
the ambiguous-username error; with no url username (and an empty urllib
answer) the configured username is used and the lookup succeeds. -/
theorem c5_conflicting_usernames_abort (env : Env) (w : World)
    (realm : String) (skip : Bool) (tok : AuthToken) (b : String)
    (hb : b ≠ "") (htok : tok.username = some b) :
    (∀ uri : Url, ∀ a : String, uri.user = some a → a ≠ "" →
      pyTruthy uri.passwd = false →
      pyTruthy (env.urllib realm uri).2 = false →
      env.config (urlStr (unpack_url uri).1) (some a) = some tok →
      a ≠ b →
      (get_credentials env w realm uri skip).1 = .error Err.ambiguousUsername) ∧
    (∀ uri : Url, uri.user = none →
      env.urllib realm uri = (none, none) →
      env.config (urlStr (unpack_url uri).1) none = some tok →
      ∃ p s fu,
        (get_credentials env w realm uri skip).1 = .ok (some b, p, s, fu)) := by
  constructor
  · intro uri a hau ha hpw hul hcfg hab
    unfold get_credentials
    dsimp only
    rw [if_neg (by simp [unpack_url, hpw])]
    rw [if_neg (by simp [hul])]
    have hact : pyOr (unpack_url uri).2.1 (env.urllib realm uri).1 = some a := by
      simp [unpack_url, pyOr, hau, pyTruthy, ha]
    rw [hact]
    obtain ⟨ku, hguc⟩ := get_url_config_username env (unpack_url uri).1
      (some a) tok hcfg
    rw [hguc]
    dsimp only
    rw [if_pos ⟨by simp [pyTruthy, htok, hb], by simp [pyTruthy, ha],
      by simp [htok, hab]⟩]
  · intro uri hau hul hcfg
    unfold get_credentials
    dsimp only
    rw [if_neg (by simp [unpack_url, hau, pyTruthy])]
    rw [if_neg (by simp [hul, pyTruthy])]
    have hact : pyOr (unpack_url uri).2.1 (env.urllib realm uri).1 = none := by
      simp [unpack_url, pyOr, hau, hul, pyTruthy]
    rw [hact]
    obtain ⟨ku, hguc⟩ := get_url_config_username env (unpack_url uri).1
      none tok hcfg
    rw [hguc]
    dsimp only
    rw [if_neg (by simp [pyTruthy])]
    rw [htok]
    by_cases hpw2 : pyTruthy tok.password = true
    · rw [if_pos ⟨by simp [pyTruthy, hb], hpw2⟩]
      exact ⟨_, _, _, rfl⟩
    · rw [if_neg (by simp [hpw2])]
      have hact2 : pyOr none (some b) = some b := by simp [pyOr, pyTruthy]
      rw [hact2]
      cases skip
      · rw [if_neg (by simp)]
        by_cases hc : pyTruthy
            (cacheCheck w.handler.pwd_cache realm ku (some b)) = true
        · rw [if_pos hc]
          exact ⟨_, _, _, rfl⟩
        · rw [if_neg hc]
          rw [if_pos (by simp [pyTruthy, hb])]
          by_cases hk : pyTruthy (keyringGet w.keyring ku ((some b).getD "")) = true
          · rw [if_pos hk]
            exact ⟨_, _, _, rfl⟩
          · rw [if_neg hk]
            exact ⟨_, _, _, rfl⟩
      · rw [if_pos rfl]
        exact ⟨_, _, _, rfl⟩

/-- Witness for C5: alice-in-url against bob-in-config aborts, while a
bare url against the same configuration resolves to bob. -/
theorem c5_witness :
    (get_credentials envCfg wEmpty "r" urlA false).1
      = .error Err.ambiguousUsername ∧
    (get_credentials envCfg wEmpty "r" url0 false).1
      = .ok (some "bob", none, none, "https://host/x") := by
  have h := c5_conflicting_usernames_abort envCfg wEmpty "r" false tokB "bob"
    (by decide) rfl
  exact ⟨h.1 urlA "alice" rfl (by decide) rfl rfl rfl (by decide), rfl⟩

/-- C6: a request uri carrying both a truthy embedded username and
password makes get_credentials return exactly that pair with the
repository-url source and the stripped base url, independently of the
world, the urllib cache, the configuration, and without any prompt
effect. -/
theorem c6_embedded_credentials_win (env : Env) (w : World) (realm : String)
    (skip : Bool) (uri : Url)
    (hu : pyTruthy uri.user = true) (hp : pyTruthy uri.passwd = true) :
    get_credentials env w realm uri skip
      = (.ok (uri.user, uri.passwd, some Src.url, urlStr (unpack_url uri).1),
         w, []) := by
  unfold get_credentials
  dsimp only
  rw [if_pos ⟨hu, hp⟩]
  exact rfl

/-- Witness for C6 at a url with embedded credentials against a world
whose cache and keyring are non-empty. -/
theorem c6_witness :
    pyTruthy urlC.user = true ∧ pyTruthy urlC.passwd = true ∧
    get_credentials env0 wFull "realm" urlC true
      = (.ok (some "alice", some "pw", some Src.url, "https://host/x"),
         wFull, []) := by
  refine ⟨by decide, by decide, ?_⟩
  exact c6_embedded_credentials_win env0 wFull "realm" true urlC
    (by decide) (by decide)

/-- C7: password_url returns base_url unchanged for an absent, empty or
wildcard prefix; otherwise it joins base_url's scheme with the prefix's
host/path part, tolerating a prefix written without its own scheme
separator. -/
theorem c7_password_url_scoping (base scheme rest : String)
    (h : splitSep base = some (scheme, rest)) (ps : String) :
    password_url base none = .ok base ∧
    password_url base (some "") = .ok base ∧
    password_url base (some "*") = .ok base ∧
    (ps ≠ "" → ps ≠ "*" → ∀ p1 hp, splitSep ps = some (p1, hp) →
      password_url base (some ps) = .ok (scheme ++ "://" ++ hp)) ∧
    (ps ≠ "" → ps ≠ "*" → splitSep ps = none →
      password_url base (some ps) = .ok (scheme ++ "://" ++ ps)) := by
  refine ⟨by simp [password_url, pyTruthy], by simp [password_url, pyTruthy],
    by simp [password_url], ?_, ?_⟩
  · intro h1 h2 p1 hp hsp
    unfold password_url
    rw [if_neg (by simp [pyTruthy, h1, h2])]
    rw [h]
    dsimp only
    simp only [Option.getD]
    rw [hsp]
  · intro h1 h2 hsp
    unfold password_url
    rw [if_neg (by simp [pyTruthy, h1, h2])]
    rw [h]
    dsimp only
    simp only [Option.getD]
    rw [hsp]

/-- Witness for C7 at concrete base urls and prefixes of both shapes. -/
theorem c7_witness :
    password_url "https://host/x" none = .ok "https://host/x" ∧
    password_url "https://host/x" (some "*") = .ok "https://host/x" ∧
    password_url "https://host/x" (some "shared/pre")
      = .ok ("https" ++ "://" ++ "shared/pre") ∧
    password_url "https://host/x" (some "http://shared")
      = .ok ("https" ++ "://" ++ "shared") := by
  have h1 := c7_password_url_scoping "https://host/x" "https" "host/x"
    (by decide) "shared/pre"
  have h2 := c7_password_url_scoping "https://host/x" "https" "host/x"
    (by decide) "http://shared"
  exact ⟨h1.1, h1.2.2.1, h1.2.2.2.2 (by decide) (by decide) (by decide),
    h2.2.2.2.1 (by decide) (by decide) "http" "shared" (by decide)⟩

/-- C10: in the credential-manager variant, a repeated request with a GUI
helper present and an embedded username in the request url makes
the after-bad-auth handler raise the NameError of the undefined `user`
variable instead of returning true. -/
theorem c10_erase_command_nameerror (env : Env) (st : HandlerState)
    (realm : String) (authuri : Url) (req : Option Nat) (lr : LastReply)
    (g s : String)
    (h1 : st.last_reply = some lr)
    (hr : lr.realm = realm) (hu : lr.authuri = authuri) (hq : lr.req = req)
    (hg : env.gui_prompt = some g) (hgt : g ≠ "")
    (hus : authuri.user = some s) :
    mcm_after_bad_auth env st realm authuri req = .error Err.nameError := by
  unfold mcm_after_bad_auth
  rw [h1]
  dsimp only
  rw [if_pos ⟨hr, hu, hq⟩]
  rw [hg]
  rw [if_pos (by simp [pyTruthy, hgt])]
  dsimp only [unpack_url]
  rw [hus]

/-- Witness for C10 at a concrete repeated request with a GUI helper and
an embedded username. -/
theorem c10_witness :
    mcm_after_bad_auth envG stC "r" urlC none = .error Err.nameError := by
  exact c10_erase_command_nameerror envG stC "r" urlC none lrC "gui" "alice"
    rfl rfl rfl rfl rfl (by decide) rfl

end MercurialKeyring
